import Mathlib

/-!
Shallow embedding of the tagged file-cache engine of `strawberry_background`
(`src/infrastructure/file_cache/file_cache_backend.rs`), the per-key lock
registry (`src/utils/keyed_rw_lock.rs`) and the runtime accessors
(`src/service/service_runtime.rs`), together with theorems settling the
frozen claims about them.

Modelling conventions:
* The `DashMap` registries are embedded as association lists over `String`
  keys with map-semantics operations (`alookup`, `ainsert`, `aremove`).
* File contents (`Vec<u8>`) are embedded as `Bytes := List Token`, where a
  token is an uninterpreted byte-vector atom; the `rkyv` serializer used for
  the channel descriptor is embedded as an injective length-prefixed codec
  over the same alphabet (`encodeChannel` / `decodeChannel`).
* The filesystem is an explicit value threaded through every operation:
  a map from file path to contents plus the set of existing directories.
* Each `tokio::time::timeout`-wrapped filesystem call is parameterised by a
  `TimedOutcome` describing whether it succeeds, fails with an io error or
  exceeds its budget; `tokio::sync::RwLock::try_write` contention is
  parameterised by the list of tags whose per-record lock is currently held
  by another holder.
-/

/-- Lookup in an association list: the value of the first entry with the
given key, the embedding of `DashMap::get` / `contains_key`. -/
def alookup {β : Type} : List (String × β) → String → Option β
  | [], _ => none
  | (k, v) :: rest, key => if k = key then some v else alookup rest key

/-- Insert-or-replace in an association list, the embedding of
`DashMap::insert` (and of in-place mutation through an entry). -/
def ainsert {β : Type} : List (String × β) → String → β → List (String × β)
  | [], key, v => [(key, v)]
  | (k, w) :: rest, key, v =>
    if k = key then (key, v) :: rest else (k, w) :: ainsert rest key v

/-- Removal from an association list, the embedding of `DashMap::remove`. -/
def aremove {β : Type} : List (String × β) → String → List (String × β)
  | [], _ => []
  | (k, w) :: rest, key =>
    if k = key then aremove rest key else (k, w) :: aremove rest key

/-- The keys of an association list. -/
def akeys {β : Type} (l : List (String × β)) : List String := l.map Prod.fst

/-- An atom of file content.  A Rust `Vec<u8>` is embedded as a list of
such atoms; keeping strings atomic lets the descriptor codec be stated
without committing to a character-level byte layout. -/
inductive Token where
  | nat (n : Nat)
  | str (s : String)
deriving DecidableEq

/-- File contents, the embedding of `Vec<u8>`. -/
abbrev Bytes := List Token

/-- `CacheRecord` from `domain/models/file_cache_models.rs`. -/
structure CacheRecord where
  tag : String
  filename : String
  size : Nat
  sentence : String
deriving DecidableEq

/-- `CacheChannel` from `domain/models/file_cache_models.rs`. -/
structure CacheChannel where
  name : String
  extension : Option String
  records : List CacheRecord
deriving DecidableEq

/-- `CacheError` from `domain/models/file_cache_models.rs` (the `IO`
variant is rendered `IOError`). -/
inductive CacheError where
  | IOError (msg : String)
  | FileNotExist (path : String)
  | TagNotExist (tag : String)
  | ManagerNotExist (name : String)
  | Lock (msg : String)
  | Serialization (msg : String)
  | Timeout (msg : String)
deriving DecidableEq

/-- Outcome of one `tokio::time::timeout`-wrapped filesystem call:
success, an io error, or an elapsed time budget. -/
inductive TimedOutcome where
  | ok
  | ioErr (msg : String)
  | timeoutErr (msg : String)
deriving DecidableEq

/-- The message carried by a `CacheError::Lock` built from a
`tokio::sync::TryLockError`. -/
def lockContendedMessage : String := "operation would block"

/-- The filesystem: file path to contents, plus existing directories. -/
structure FS where
  files : List (String × Bytes)
  dirs : List String
deriving DecidableEq

/-- Contents of the file at `path`, the embedding of `tokio::fs::read`
(`none` when `tokio::fs::try_exists` is false). -/
def fsRead (fs : FS) (path : String) : Option Bytes := alookup fs.files path

/-- Overwrite-or-create, the embedding of `tokio::fs::write`. -/
def fsWrite (fs : FS) (path : String) (data : Bytes) : FS :=
  { fs with files := ainsert fs.files path data }

/-- The embedding of `tokio::fs::remove_file`. -/
def fsRemoveFile (fs : FS) (path : String) : FS :=
  { fs with files := aremove fs.files path }

/-- `DefaultFileCacheManager::ensure_directory_exist`: create the
directory unless `try_exists` already reports it. -/
def ensureDirectoryExist (fs : FS) (directory : String) : FS :=
  if directory ∈ fs.dirs then fs else { fs with dirs := directory :: fs.dirs }

/-- `DefaultFileCacheManager::ensure_file_exist`: `File::create_new` an
empty file unless `try_exists` already reports it. -/
def ensureFileExist (fs : FS) (filename : String) : FS :=
  match alookup fs.files filename with
  | some _ => fs
  | none => { fs with files := ainsert fs.files filename [] }

/-- The length-prefixed serialization of one `CacheRecord`, the embedding
of its `rkyv` image inside the descriptor. -/
def encodeRecord (r : CacheRecord) : Bytes :=
  [Token.str r.tag, Token.str r.filename, Token.nat r.size, Token.str r.sentence]

/-- Serialization of a record list (records in order). -/
def encodeRecords : List CacheRecord → Bytes
  | [] => []
  | r :: rs => encodeRecord r ++ encodeRecords rs

/-- `rkyv::to_bytes` on a `CacheChannel`, embedded as an injective
length-prefixed encoding. -/
def encodeChannel (c : CacheChannel) : Bytes :=
  Token.str c.name ::
    ((match c.extension with
      | none => [Token.nat 0]
      | some e => [Token.nat 1, Token.str e]) ++
      (Token.nat c.records.length :: encodeRecords c.records))

/-- Parse one record, returning it with the unconsumed rest. -/
def decodeRecord : Bytes → Option (CacheRecord × Bytes)
  | Token.str tag :: Token.str filename :: Token.nat size :: Token.str sentence :: rest =>
    some ({ tag := tag, filename := filename, size := size, sentence := sentence }, rest)
  | _ => none

/-- Parse exactly `n` records. -/
def decodeRecords : Nat → Bytes → Option (List CacheRecord × Bytes)
  | 0, rest => some ([], rest)
  | n + 1, b =>
    match decodeRecord b with
    | none => none
    | some (r, rest) =>
      match decodeRecords n rest with
      | none => none
      | some (rs, rest2) => some (r :: rs, rest2)

/-- `rkyv::from_bytes` on a `CacheChannel`: inverse of `encodeChannel`,
requiring the whole input to be consumed. -/
def decodeChannel (b : Bytes) : Option CacheChannel :=
  match b with
  | Token.str name :: Token.nat 0 :: Token.nat n :: rest =>
    match decodeRecords n rest with
    | some (rs, []) => some { name := name, extension := none, records := rs }
    | _ => none
  | Token.str name :: Token.nat 1 :: Token.str e :: Token.nat n :: rest =>
    match decodeRecords n rest with
    | some (rs, []) => some { name := name, extension := some e, records := rs }
    | _ => none
  | _ => none

/-- In-memory state of a `DefaultFileCacheManager`
(`file_cache_backend.rs`): channel name, directory path, optional blob
extension, auto-save interval, dirty flag, and the tag → record index.
The `save_lock` mutex is a concurrency artefact with no sequential
content and is not part of the state. -/
structure DefaultFileCacheManager where
  name : String
  path : String
  extension : Option String
  autoSaveInterval : Nat
  dirty : Bool
  map : List (String × CacheRecord)
deriving DecidableEq

/-- The index built by `DefaultFileCacheManager::new`: every record of
the channel inserted in order, keyed by its tag. -/
def mapOfRecords (records : List CacheRecord) : List (String × CacheRecord) :=
  records.foldl (fun acc r => ainsert acc r.tag r) []

/-- `DefaultFileCacheManager::new`. -/
def DefaultFileCacheManager.new (path : String) (auto_save_interval : Nat)
    (channel : CacheChannel) : DefaultFileCacheManager :=
  { name := channel.name
    path := path
    extension := channel.extension
    autoSaveInterval := auto_save_interval
    dirty := false
    map := mapOfRecords channel.records }

/-- `DefaultFileCacheManager::get_channel_path`. -/
def DefaultFileCacheManager.get_channel_path (m : DefaultFileCacheManager) : String :=
  m.path ++ "/channel.rkyv"

/-- `DefaultFileCacheManager::build_path`. -/
def DefaultFileCacheManager.build_path (m : DefaultFileCacheManager)
    (filename : String) : String :=
  match m.extension with
  | some ext => m.path ++ "/" ++ filename ++ "." ++ ext
  | none => m.path ++ "/" ++ filename

/-- `DefaultFileCacheManager::cache`.  `locked` lists the tags whose
record lock is held by another holder (`try_write` contention),
`freshFilename` is the `Uuid::new_v4` draw used when the tag is new, and
`w` is the outcome of the timeout-wrapped `tokio::fs::write` of the blob. -/
def DefaultFileCacheManager.cache (m : DefaultFileCacheManager) (fs : FS)
    (locked : List String) (tag sentence : String) (bytes : Bytes)
    (freshFilename : String) (w : TimedOutcome) :
    Except CacheError Unit × DefaultFileCacheManager × FS :=
  match alookup m.map tag with
  | some record =>
    if tag ∈ locked then
      (Except.error (CacheError.Lock lockContendedMessage), m, fs)
    else
      let path := m.build_path record.filename
      let fs1 := ensureDirectoryExist fs m.path
      let fs2 := ensureFileExist fs1 path
      match w with
      | TimedOutcome.ok =>
        let updated := { record with sentence := sentence, size := bytes.length }
        (Except.ok (),
          { m with map := ainsert m.map tag updated, dirty := true },
          fsWrite fs2 path bytes)
      | TimedOutcome.ioErr e => (Except.error (CacheError.IOError e), m, fs2)
      | TimedOutcome.timeoutErr e => (Except.error (CacheError.Timeout e), m, fs2)
  | none =>
    let path := m.build_path freshFilename
    let fs1 := ensureDirectoryExist fs m.path
    let fs2 := ensureFileExist fs1 path
    match w with
    | TimedOutcome.ok =>
      let record : CacheRecord :=
        { tag := tag, filename := freshFilename, size := bytes.length, sentence := sentence }
      (Except.ok (),
        { m with map := ainsert m.map tag record, dirty := true },
        fsWrite fs2 path bytes)
    | TimedOutcome.ioErr e => (Except.error (CacheError.IOError e), m, fs2)
    | TimedOutcome.timeoutErr e => (Except.error (CacheError.Timeout e), m, fs2)

/-- `DefaultFileCacheManager::should_update`. -/
def DefaultFileCacheManager.should_update (m : DefaultFileCacheManager) (fs : FS)
    (locked : List String) (tag sentence : String) : Except CacheError Bool :=
  match alookup m.map tag with
  | none => Except.error (CacheError.TagNotExist tag)
  | some record =>
    if tag ∈ locked then Except.error (CacheError.Lock lockContendedMessage)
    else if (fsRead fs (m.build_path record.filename)).isSome = false then
      Except.ok true
    else
      Except.ok (record.sentence != sentence)

/-- `DefaultFileCacheManager::fetch`; `r` is the outcome of the
timeout-wrapped `tokio::fs::read` of the blob. -/
def DefaultFileCacheManager.fetch (m : DefaultFileCacheManager) (fs : FS)
    (locked : List String) (tag : String) (r : TimedOutcome) :
    Except CacheError Bytes :=
  match alookup m.map tag with
  | none => Except.error (CacheError.TagNotExist tag)
  | some record =>
    if tag ∈ locked then Except.error (CacheError.Lock lockContendedMessage)
    else
      let path := m.build_path record.filename
      match fsRead fs path with
      | none => Except.error (CacheError.FileNotExist path)
      | some data =>
        match r with
        | TimedOutcome.ok => Except.ok data
        | TimedOutcome.ioErr e => Except.error (CacheError.IOError e)
        | TimedOutcome.timeoutErr e => Except.error (CacheError.Timeout e)

/-- `DefaultFileCacheManager::flush`; `removeOutcome` is the outcome of
`tokio::fs::remove_file` (`none` = success, `some e` = io error). -/
def DefaultFileCacheManager.flush (m : DefaultFileCacheManager) (fs : FS)
    (tag : String) (removeOutcome : Option String) :
    Except CacheError Unit × DefaultFileCacheManager × FS :=
  match alookup m.map tag with
  | none => (Except.error (CacheError.TagNotExist tag), m, fs)
  | some record =>
    let m1 := { m with map := aremove m.map tag, dirty := true }
    let path := m.build_path record.filename
    if (fsRead fs path).isSome then
      match removeOutcome with
      | none => (Except.ok (), m1, fsRemoveFile fs path)
      | some e => (Except.error (CacheError.IOError e), m1, fs)
    else
      (Except.ok (), m1, fs)

/-- `DefaultFileCacheManager::persist`; `serializationOk` is whether
`rkyv::to_bytes` succeeds and `w` the outcome of the timeout-wrapped
descriptor `tokio::fs::write`. -/
def DefaultFileCacheManager.persist (m : DefaultFileCacheManager) (fs : FS)
    (serializationOk : Bool) (w : TimedOutcome) :
    Except CacheError Unit × DefaultFileCacheManager × FS :=
  if m.dirty = false then (Except.ok (), m, fs)
  else
    let records := m.map.map Prod.snd
    let channel : CacheChannel :=
      { name := m.name, extension := m.extension, records := records }
    if serializationOk = false then
      (Except.error (CacheError.Serialization "serialize"), m, fs)
    else
      let bytes := encodeChannel channel
      let channel_path := m.get_channel_path
      let fs1 := ensureDirectoryExist fs m.path
      let fs2 := ensureFileExist fs1 channel_path
      match w with
      | TimedOutcome.ok =>
        (Except.ok (), { m with dirty := false }, fsWrite fs2 channel_path bytes)
      | TimedOutcome.ioErr e => (Except.error (CacheError.IOError e), m, fs2)
      | TimedOutcome.timeoutErr e => (Except.error (CacheError.Timeout e), m, fs2)

/-- `DefaultFileCacheManager::record`. -/
def DefaultFileCacheManager.record (m : DefaultFileCacheManager)
    (locked : List String) (tag : String) : Except CacheError CacheRecord :=
  match alookup m.map tag with
  | none => Except.error (CacheError.TagNotExist tag)
  | some record =>
    if tag ∈ locked then Except.error (CacheError.Lock lockContendedMessage)
    else Except.ok record

/-- `DefaultFileCacheManager::path`. -/
def DefaultFileCacheManager.path_op (m : DefaultFileCacheManager) (fs : FS)
    (locked : List String) (tag : String) : Except CacheError String :=
  match alookup m.map tag with
  | none => Except.error (CacheError.TagNotExist tag)
  | some record =>
    if tag ∈ locked then Except.error (CacheError.Lock lockContendedMessage)
    else
      let path := m.build_path record.filename
      if (fsRead fs path).isSome = false then
        Except.error (CacheError.FileNotExist path)
      else Except.ok path

/-- `FileCacheConfig` from `service/config.rs` (durations as whole
numbers of time units; the `channels` pre-creation list only matters to
runtime construction and is not part of the factory's operational state). -/
structure FileCacheConfig where
  base_path : String
  auto_save_interval : Nat
deriving DecidableEq

/-- State of `SingletonFileCacheManagerFactory`: its configuration and
the channel-name → manager registry.  The `creator` closure is the
concrete one installed by `service_runtime.rs`, which builds a
`DefaultFileCacheManager` at `{base_path}/{channel.name}`. -/
structure SingletonFileCacheManagerFactory where
  config : FileCacheConfig
  map : List (String × DefaultFileCacheManager)
deriving DecidableEq

/-- `SingletonFileCacheManagerFactory::get_channel_path`. -/
def SingletonFileCacheManagerFactory.get_channel_path
    (f : SingletonFileCacheManagerFactory) (name : String) : String :=
  f.config.base_path ++ "/" ++ name ++ "/channel.rkyv"

/-- `SingletonFileCacheManagerFactory::create_channel`: load the
descriptor from disk when present, else return an empty channel. -/
def SingletonFileCacheManagerFactory.create_channel
    (f : SingletonFileCacheManagerFactory) (fs : FS) (name : String)
    (extension : Option String) : Except CacheError CacheChannel :=
  match fsRead fs (f.get_channel_path name) with
  | none => Except.ok { name := name, extension := extension, records := [] }
  | some data =>
    match decodeChannel data with
    | none => Except.error (CacheError.IOError "rkyv deserialize")
    | some channel => Except.ok channel

/-- The `creator` closure installed by
`ServiceRuntime::create_file_cache_factory`. -/
def fileCacheCreator (config : FileCacheConfig) (channel : CacheChannel) :
    DefaultFileCacheManager :=
  DefaultFileCacheManager.new (config.base_path ++ "/" ++ channel.name)
    config.auto_save_interval channel

/-- `SingletonFileCacheManagerFactory::create_with_channel`: idempotent
registration of one manager per channel name. -/
def SingletonFileCacheManagerFactory.create_with_channel
    (f : SingletonFileCacheManagerFactory) (channel : CacheChannel) :
    DefaultFileCacheManager × SingletonFileCacheManagerFactory :=
  match alookup f.map channel.name with
  | some manager => (manager, f)
  | none =>
    let manager := fileCacheCreator f.config channel
    (manager, { f with map := ainsert f.map channel.name manager })

/-- `SingletonFileCacheManagerFactory::get_with_name`. -/
def SingletonFileCacheManagerFactory.get_with_name
    (f : SingletonFileCacheManagerFactory) (name : String) :
    Except CacheError DefaultFileCacheManager :=
  match alookup f.map name with
  | none => Except.error (CacheError.ManagerNotExist name)
  | some manager => Except.ok manager

/-- One slot of a `KeyedRwLock` registry
(`utils/keyed_rw_lock.rs`): the protected value together with the number
of `Arc` references to the slot held outside the registry itself
(`Arc::strong_count` minus the registry's own reference). -/
structure KeyedSlot (T : Type) where
  value : T
  extraRefs : Nat
deriving DecidableEq

/-- State of a `KeyedRwLock<T>`. -/
structure KeyedRwLock (T : Type) where
  cumulative_cleanup : Int
  locks : List (String × KeyedSlot T)
deriving DecidableEq

/-- `KeyedRwLock::free`: absent key is a no-op returning `none`;
otherwise the slot is removed from the registry, and the value is
returned exactly when `Arc::into_inner` succeeds, i.e. when no holder
outside the registry references the slot. -/
def KeyedRwLock.free {T : Type} (l : KeyedRwLock T) (id : String) :
    Option (String × T) × KeyedRwLock T :=
  match alookup l.locks id with
  | none => (none, l)
  | some slot =>
    let l2 : KeyedRwLock T := { l with locks := aremove l.locks id }
    if slot.extraRefs = 0 then (some (id, slot.value), l2) else (none, l2)

/-- `KeyedRwLock::cleanup`: retain only slots still referenced outside
the registry, and reset the cleanup counter. -/
def KeyedRwLock.cleanup {T : Type} (l : KeyedRwLock T) : KeyedRwLock T :=
  { cumulative_cleanup := 0
    locks := l.locks.filter (fun slot => 0 < (Prod.snd slot).extraRefs) }

/-- `HttpMethod` from `domain/models/http_models.rs`. -/
inductive HttpMethod where
  | Get
  | Post
  | Put
  | Delete
deriving DecidableEq

/-- `HttpEndpoint` from `domain/models/http_models.rs` (durations as
whole numbers of time units). -/
structure HttpEndpoint where
  path : String
  domain : String
  body : Option Bytes
  timeout : Nat
  headers : Option (List (String × String))
  path_params : Option (List (String × String))
  query_params : Option (List (String × String))
  method : HttpMethod
  requires_encryption : Bool
  requires_decryption : Bool
  user_agent : Option String
  content_type : Option String
deriving DecidableEq

/-- `HttpResponse` from `domain/models/http_models.rs`. -/
structure HttpResponse where
  status : Nat
  headers : List (String × String)
  body : Bytes
deriving DecidableEq

/-- `HttpClientError` from `domain/models/http_models.rs`. -/
inductive HttpClientError where
  | Network (msg : String)
  | Timeout (after : Nat)
  | InvalidUrl (msg : String)
  | InvalidHeader (msg : String)
  | Serialization (msg : String)
  | Configuration (msg : String)
  | Crypto (msg : String)
deriving DecidableEq

/-- `ReadFile` from `domain/models/storage_models.rs`. -/
structure ReadFile where
  path : String
  timeout : Nat
deriving DecidableEq

/-- `WriteMode` from `domain/models/storage_models.rs`. -/
inductive WriteMode where
  | Cover
  | Append
deriving DecidableEq

/-- `EnsureMode` from `domain/models/storage_models.rs`. -/
inductive EnsureMode where
  | Flush
  | SyncData
  | SyncAll
deriving DecidableEq

/-- `WriteFile` from `domain/models/storage_models.rs`. -/
structure WriteFile where
  path : String
  mode : WriteMode
  timeout : Nat
  ensure_mode : Option EnsureMode
  data : Bytes
deriving DecidableEq

/-- `StorageError` from `domain/models/storage_models.rs`. -/
inductive StorageError where
  | FileRequired (path : String)
  | DirectoryRequired (path : String)
  | NotExist (path : String)
  | IOError (msg : String)
  | Timeout (msg : String)
deriving DecidableEq

/-- The `HttpClient` collaborator (`domain/traits/http_traits.rs`),
excluded from the core and embedded by its observable behaviour. -/
structure HttpClient where
  execute : HttpEndpoint → Except HttpClientError HttpResponse

/-- The `StorageManager` collaborator
(`domain/traits/storage_traits.rs`), excluded from the core and embedded
by its observable behaviour. -/
structure StorageManager where
  read : ReadFile → Except StorageError Bytes
  write : WriteFile → Except StorageError Unit

/-- `ServiceError` from `service/service_runtime.rs`. -/
inductive ServiceError where
  | NotConfigured (subsystem : String)
deriving DecidableEq

/-- Subsystem fields of `ServiceRuntime` (`service/service_runtime.rs`).
The tokio runtime handles and the cookie auto-save join handle carry no
sequential content and are not part of the state. -/
structure ServiceRuntime where
  http_client : Option HttpClient
  storage_manager : Option StorageManager
  file_cache_manager_factory : Option SingletonFileCacheManagerFactory

/-- `ServiceRuntime::execute_http` (the spawned task's eventual result
stands in for the returned `JoinHandle`). -/
def ServiceRuntime.execute_http (rt : ServiceRuntime) (endpoint : HttpEndpoint) :
    Except ServiceError (Except HttpClientError HttpResponse) :=
  match rt.http_client with
  | none => Except.error (ServiceError.NotConfigured "Http Client")
  | some client => Except.ok (client.execute endpoint)

/-- `ServiceRuntime::read_file`. -/
def ServiceRuntime.read_file (rt : ServiceRuntime) (read_file : ReadFile) :
    Except ServiceError (Except StorageError Bytes) :=
  match rt.storage_manager with
  | none => Except.error (ServiceError.NotConfigured "Storage Manager")
  | some storage_manager => Except.ok (storage_manager.read read_file)

/-- `ServiceRuntime::write_file`. -/
def ServiceRuntime.write_file (rt : ServiceRuntime) (write_file : WriteFile) :
    Except ServiceError (Except StorageError Unit) :=
  match rt.storage_manager with
  | none => Except.error (ServiceError.NotConfigured "Storage Manager")
  | some storage_manager => Except.ok (storage_manager.write write_file)

/-- `ServiceRuntime::file_cache_cache`.  On success the updated manager
is written back into the factory registry (the embedding of in-place
mutation through the shared `Arc`). -/
def ServiceRuntime.file_cache_cache (rt : ServiceRuntime) (fs : FS)
    (locked : List String) (channel : String) (tag sentence : String)
    (bytes : Bytes) (freshFilename : String) (w : TimedOutcome) :
    Except ServiceError (Except CacheError Unit × SingletonFileCacheManagerFactory × FS) :=
  match rt.file_cache_manager_factory with
  | none => Except.error (ServiceError.NotConfigured "File Cache")
  | some factory =>
    match factory.get_with_name channel with
    | Except.error e => Except.ok (Except.error e, factory, fs)
    | Except.ok manager =>
      let result := manager.cache fs locked tag sentence bytes freshFilename w
      Except.ok (result.1,
        { factory with map := ainsert factory.map channel result.2.1 }, result.2.2)

/-- `ServiceRuntime::file_cache_should_update`. -/
def ServiceRuntime.file_cache_should_update (rt : ServiceRuntime) (fs : FS)
    (locked : List String) (channel : String) (tag sentence : String) :
    Except ServiceError (Except CacheError Bool) :=
  match rt.file_cache_manager_factory with
  | none => Except.error (ServiceError.NotConfigured "File Cache")
  | some factory =>
    match factory.get_with_name channel with
    | Except.error e => Except.ok (Except.error e)
    | Except.ok manager => Except.ok (manager.should_update fs locked tag sentence)

/-- `ServiceRuntime::file_cache_fetch`. -/
def ServiceRuntime.file_cache_fetch (rt : ServiceRuntime) (fs : FS)
    (locked : List String) (channel : String) (tag : String) (r : TimedOutcome) :
    Except ServiceError (Except CacheError Bytes) :=
  match rt.file_cache_manager_factory with
  | none => Except.error (ServiceError.NotConfigured "File Cache")
  | some factory =>
    match factory.get_with_name channel with
    | Except.error e => Except.ok (Except.error e)
    | Except.ok manager => Except.ok (manager.fetch fs locked tag r)

/-- `ServiceRuntime::file_cache_flush`. -/
def ServiceRuntime.file_cache_flush (rt : ServiceRuntime) (fs : FS)
    (channel : String) (tag : String) (removeOutcome : Option String) :
    Except ServiceError (Except CacheError Unit × SingletonFileCacheManagerFactory × FS) :=
  match rt.file_cache_manager_factory with
  | none => Except.error (ServiceError.NotConfigured "File Cache")
  | some factory =>
    match factory.get_with_name channel with
    | Except.error e => Except.ok (Except.error e, factory, fs)
    | Except.ok manager =>
      let result := manager.flush fs tag removeOutcome
      Except.ok (result.1,
        { factory with map := ainsert factory.map channel result.2.1 }, result.2.2)

/-- `ServiceRuntime::file_cache_persist`. -/
def ServiceRuntime.file_cache_persist (rt : ServiceRuntime) (fs : FS)
    (channel : String) (serializationOk : Bool) (w : TimedOutcome) :
    Except ServiceError (Except CacheError Unit × SingletonFileCacheManagerFactory × FS) :=
  match rt.file_cache_manager_factory with
  | none => Except.error (ServiceError.NotConfigured "File Cache")
  | some factory =>
    match factory.get_with_name channel with
    | Except.error e => Except.ok (Except.error e, factory, fs)
    | Except.ok manager =>
      let result := manager.persist fs serializationOk w
      Except.ok (result.1,
        { factory with map := ainsert factory.map channel result.2.1 }, result.2.2)

/-- Representation invariant of a `DashMap` embedded as an association
list keyed by record tag: keys are pairwise distinct and every record is
stored under its own tag. -/
def mapWF (l : List (String × CacheRecord)) : Prop :=
  (l.map Prod.fst).Nodup ∧ ∀ p ∈ l, (Prod.snd p).tag = Prod.fst p

instance mapWF_decidable (l : List (String × CacheRecord)) : Decidable (mapWF l) := by
  unfold mapWF
  infer_instance

/-- Looking up a key right after inserting it yields the inserted value. -/
theorem alookup_ainsert_self {β : Type} (l : List (String × β)) (k : String) (v : β) :
    alookup (ainsert l k v) k = some v := by
  induction l with
  | nil => simp [ainsert, alookup]
  | cons head rest ih =>
    obtain ⟨hk, hv⟩ := head
    by_cases h : hk = k
    · simp [ainsert, alookup, h]
    · simp [ainsert, alookup, h, ih]

/-- Looking up a key right after removing it yields nothing. -/
theorem alookup_aremove_self {β : Type} (l : List (String × β)) (k : String) :
    alookup (aremove l k) k = none := by
  induction l with
  | nil => simp [aremove, alookup]
  | cons head rest ih =>
    obtain ⟨hk, hv⟩ := head
    by_cases h : hk = k
    · simp [aremove, h, ih]
    · simp [aremove, alookup, h, ih]

/-- Inserting an absent key appends the new entry at the end. -/
theorem ainsert_of_not_mem {β : Type} (l : List (String × β)) (k : String) (v : β)
    (h : k ∉ akeys l) : ainsert l k v = l ++ [(k, v)] := by
  induction l with
  | nil => simp [ainsert]
  | cons head rest ih =>
    obtain ⟨hk, hv⟩ := head
    simp only [akeys, List.map_cons, List.mem_cons, not_or] at h
    have hne : hk ≠ k := fun hc => h.1 hc.symm
    simp only [ainsert, if_neg hne, List.cons_append, List.cons.injEq, true_and]
    exact ih (by simpa [akeys] using h.2)

/-- Folding `ainsert` over records with pairwise-distinct tags, all absent
from the accumulator, appends them in order. -/
theorem foldl_ainsert_records (rs : List CacheRecord) :
    ∀ acc : List (String × CacheRecord),
      (rs.map CacheRecord.tag).Nodup →
      (∀ r ∈ rs, r.tag ∉ akeys acc) →
      rs.foldl (fun acc r => ainsert acc r.tag r) acc
        = acc ++ rs.map (fun r => (r.tag, r)) := by
  induction rs with
  | nil => intro acc _ _; simp
  | cons r rest ih =>
    intro acc hnd hdis
    simp only [List.map_cons, List.nodup_cons] at hnd
    have hr : r.tag ∉ akeys acc := hdis r (List.mem_cons_self r rest)
    have step : ainsert acc r.tag r = acc ++ [(r.tag, r)] := ainsert_of_not_mem acc r.tag r hr
    have hdis2 : ∀ q ∈ rest, q.tag ∉ akeys (acc ++ [(r.tag, r)]) := by
      intro q hq
      have hq1 : q.tag ∉ akeys acc := hdis q (List.mem_cons_of_mem r hq)
      have hq2 : q.tag ≠ r.tag := by
        intro hc
        exact hnd.1 (hc ▸ List.mem_map_of_mem CacheRecord.tag hq)
      simp [akeys, hq2]
      simpa [akeys] using hq1
    calc (r :: rest).foldl (fun acc r => ainsert acc r.tag r) acc
        = rest.foldl (fun acc r => ainsert acc r.tag r) (acc ++ [(r.tag, r)]) := by
          simp [List.foldl_cons, step]
      _ = (acc ++ [(r.tag, r)]) ++ rest.map (fun r => (r.tag, r)) := ih _ hnd.2 hdis2
      _ = acc ++ (r :: rest).map (fun r => (r.tag, r)) := by simp

/-- In a well-formed index, the tags of the snapshot are the keys. -/
theorem snapshot_tags (l : List (String × CacheRecord))
    (htag : ∀ p ∈ l, (Prod.snd p).tag = Prod.fst p) :
    (l.map Prod.snd).map CacheRecord.tag = l.map Prod.fst := by
  induction l with
  | nil => simp
  | cons p rest ih =>
    simp only [List.map_cons, List.cons.injEq]
    exact ⟨htag p (List.mem_cons_self p rest),
      ih (fun q hq => htag q (List.mem_cons_of_mem p hq))⟩

/-- In a well-formed index, re-keying each snapshot record by its tag
gives back the original entry list. -/
theorem snapshot_pairs (l : List (String × CacheRecord))
    (htag : ∀ p ∈ l, (Prod.snd p).tag = Prod.fst p) :
    (l.map Prod.snd).map (fun r => (r.tag, r)) = l := by
  induction l with
  | nil => simp
  | cons p rest ih =>
    simp only [List.map_cons, List.cons.injEq]
    constructor
    · exact Prod.ext (htag p (List.mem_cons_self p rest)) rfl
    · exact ih (fun q hq => htag q (List.mem_cons_of_mem p hq))

/-- Rebuilding the index from the snapshot of a well-formed index gives
back the very same index. -/
theorem mapOfRecords_snapshot (l : List (String × CacheRecord)) (h : mapWF l) :
    mapOfRecords (l.map Prod.snd) = l := by
  obtain ⟨hnd, htag⟩ := h
  have hnd2 : ((l.map Prod.snd).map CacheRecord.tag).Nodup := by
    rw [snapshot_tags l htag]; exact hnd
  unfold mapOfRecords
  rw [foldl_ainsert_records (l.map Prod.snd) [] hnd2 (by simp [akeys])]
  simpa using snapshot_pairs l htag

/-- Parsing one encoded record consumes exactly its encoding. -/
theorem decodeRecord_encodeRecord (r : CacheRecord) (rest : Bytes) :
    decodeRecord (encodeRecord r ++ rest) = some (r, rest) := by
  simp [encodeRecord, decodeRecord]

/-- Parsing `n` encoded records consumes exactly their encodings. -/
theorem decodeRecords_encodeRecords (rs : List CacheRecord) (rest : Bytes) :
    decodeRecords rs.length (encodeRecords rs ++ rest) = some (rs, rest) := by
  induction rs generalizing rest with
  | nil => simp [encodeRecords, decodeRecords]
  | cons r rs ih =>
    simp [encodeRecords, decodeRecords, decodeRecord_encodeRecord, List.append_assoc, ih]

/-- The descriptor codec round-trips: `decodeChannel` inverts
`encodeChannel`, the embedding of the `rkyv` serialize/deserialize
contract for `CacheChannel`. -/
theorem decodeChannel_encodeChannel (c : CacheChannel) :
    decodeChannel (encodeChannel c) = some c := by
  obtain ⟨name, extension, records⟩ := c
  cases extension with
  | none =>
    have h := decodeRecords_encodeRecords records []
    simp only [List.append_nil] at h
    simp [encodeChannel, decodeChannel, h]
  | some e =>
    have h := decodeRecords_encodeRecords records []
    simp only [List.append_nil] at h
    simp [encodeChannel, decodeChannel, h]

/-- Reading a path right after writing it yields the written contents. -/
theorem fsRead_fsWrite_self (fs : FS) (p : String) (b : Bytes) :
    fsRead (fsWrite fs p b) p = some b := by
  simp [fsRead, fsWrite, alookup_ainsert_self]

/-- Claim C1: for every tag `t`, sentence `s` and byte vector `b`, after a
successful `cache(t,s,b)` on a manager, a subsequent `fetch(t)` on that
manager (no intervening operations: no contending lock holder and a
non-failing read) returns exactly the bytes `b`. -/
theorem spec_c1_cache_then_fetch
    (m m' : DefaultFileCacheManager) (fs fs' : FS) (locked : List String)
    (tag sentence : String) (bytes : Bytes) (freshFilename : String)
    (w : TimedOutcome)
    (h : m.cache fs locked tag sentence bytes freshFilename w = (Except.ok (), m', fs')) :
    m'.fetch fs' [] tag TimedOutcome.ok = Except.ok bytes := by
  unfold DefaultFileCacheManager.cache at h
  cases hk : alookup m.map tag with
  | some record =>
    rw [hk] at h
    by_cases hl : tag ∈ locked
    · simp [hl] at h
    · simp only [if_neg hl] at h
      cases w with
      | ok =>
        simp only [Prod.mk.injEq] at h
        obtain ⟨-, h2, h3⟩ := h
        subst h2; subst h3
        simp [DefaultFileCacheManager.fetch, alookup_ainsert_self,
          DefaultFileCacheManager.build_path, fsRead_fsWrite_self]
      | ioErr e => simp at h
      | timeoutErr e => simp at h
  | none =>
    rw [hk] at h
    cases w with
    | ok =>
      simp only [Prod.mk.injEq] at h
      obtain ⟨-, h2, h3⟩ := h
      subst h2; subst h3
      simp [DefaultFileCacheManager.fetch, alookup_ainsert_self,
        DefaultFileCacheManager.build_path, fsRead_fsWrite_self]
    | ioErr e => simp at h
    | timeoutErr e => simp at h

/-- Witness for C1: a concrete run of `cache` followed by `fetch` on an
initially empty channel. -/
theorem spec_c1_witness :
    DefaultFileCacheManager.fetch
      { name := "c", path := "p", extension := none, autoSaveInterval := 1,
        dirty := true,
        map := [("t", { tag := "t", filename := "f", size := 1, sentence := "s" })] }
      { files := [("p/f", [Token.nat 7])], dirs := ["p"] }
      [] "t" TimedOutcome.ok = Except.ok [Token.nat 7] :=
  spec_c1_cache_then_fetch
    { name := "c", path := "p", extension := none, autoSaveInterval := 1,
      dirty := false, map := [] }
    _ { files := [], dirs := [] } _ [] "t" "s" [Token.nat 7] "f" TimedOutcome.ok
    (by rfl)

/-- Claim C3: if `cache(t,s,b)` returns an io or timeout error from the
blob write, the manager's metadata state is entirely unchanged — the
index (hence any existing record's filename, size and sentence, and the
absence of an entry for an unknown tag) and the dirty flag are those of
the pre-call state. -/
theorem spec_c3_cache_failure_atomic
    (m : DefaultFileCacheManager) (fs : FS) (locked : List String)
    (tag sentence : String) (bytes : Bytes) (freshFilename : String)
    (w : TimedOutcome) (e : String)
    (h : (m.cache fs locked tag sentence bytes freshFilename w).1
            = Except.error (CacheError.IOError e)
       ∨ (m.cache fs locked tag sentence bytes freshFilename w).1
            = Except.error (CacheError.Timeout e)) :
    (m.cache fs locked tag sentence bytes freshFilename w).2.1 = m := by
  unfold DefaultFileCacheManager.cache at h ⊢
  cases hk : alookup m.map tag with
  | some record =>
    by_cases hl : tag ∈ locked
    · simp [hk, hl]
    · cases w with
      | ok => simp [hk, hl] at h
      | ioErr e2 => simp [hk, hl]
      | timeoutErr e2 => simp [hk, hl]
  | none =>
    cases w with
    | ok => simp [hk] at h
    | ioErr e2 => simp [hk]
    | timeoutErr e2 => simp [hk]

/-- Witness for C3: a failed blob overwrite of a cached tag leaves the
manager state untouched. -/
theorem spec_c3_witness :
    (DefaultFileCacheManager.cache
      { name := "c", path := "p", extension := none, autoSaveInterval := 1,
        dirty := false,
        map := [("t", { tag := "t", filename := "f", size := 1, sentence := "s" })] }
      { files := [], dirs := [] } [] "t" "s2" [Token.nat 9] "g"
      (TimedOutcome.ioErr "boom")).2.1
    = { name := "c", path := "p", extension := none, autoSaveInterval := 1,
        dirty := false,
        map := [("t", { tag := "t", filename := "f", size := 1, sentence := "s" })] } :=
  spec_c3_cache_failure_atomic
    { name := "c", path := "p", extension := none, autoSaveInterval := 1,
      dirty := false,
      map := [("t", { tag := "t", filename := "f", size := 1, sentence := "s" })] }
    { files := [], dirs := [] } [] "t" "s2" [Token.nat 9] "g"
    (TimedOutcome.ioErr "boom") "boom" (Or.inl (by rfl))

/-- Claim C4: every successful `cache` sets the dirty flag; every `flush`
that removes a tag sets the dirty flag; `persist` on a clean manager
returns `Ok` immediately without touching state or disk; a successful
`persist` of a dirty manager clears the flag; and a failed `persist`
(serialization, io or timeout) leaves the state — hence the set flag —
unchanged. -/
theorem spec_c4_dirty_bit :
    (∀ (m m' : DefaultFileCacheManager) (fs fs' : FS) (locked : List String)
        (tag sentence : String) (bytes : Bytes) (freshFilename : String) (w : TimedOutcome),
      m.cache fs locked tag sentence bytes freshFilename w = (Except.ok (), m', fs') →
      m'.dirty = true)
  ∧ (∀ (m : DefaultFileCacheManager) (fs : FS) (tag : String)
        (removeOutcome : Option String) (r : CacheRecord),
      alookup m.map tag = some r →
      ((m.flush fs tag removeOutcome).2.1).dirty = true)
  ∧ (∀ (m : DefaultFileCacheManager) (fs : FS) (serializationOk : Bool) (w : TimedOutcome),
      m.dirty = false → m.persist fs serializationOk w = (Except.ok (), m, fs))
  ∧ (∀ (m m' : DefaultFileCacheManager) (fs fs' : FS) (serializationOk : Bool)
        (w : TimedOutcome),
      m.persist fs serializationOk w = (Except.ok (), m', fs') → m.dirty = true →
      m'.dirty = false)
  ∧ (∀ (m : DefaultFileCacheManager) (fs : FS) (serializationOk : Bool) (w : TimedOutcome)
        (e : CacheError),
      (m.persist fs serializationOk w).1 = Except.error e →
      (m.persist fs serializationOk w).2.1 = m) := by
  refine ⟨?_, ?_, ?_, ?_, ?_⟩
  · intro m m' fs fs' locked tag sentence bytes freshFilename w h
    unfold DefaultFileCacheManager.cache at h
    cases hk : alookup m.map tag with
    | some record =>
      by_cases hl : tag ∈ locked
      · simp [hk, hl] at h
      · cases w with
        | ok =>
          simp only [hk, if_neg hl, Prod.mk.injEq] at h
          obtain ⟨-, h1, h2⟩ := h
          subst h1
          rfl
        | ioErr e => simp [hk, hl] at h
        | timeoutErr e => simp [hk, hl] at h
    | none =>
      cases w with
      | ok =>
        simp only [hk, Prod.mk.injEq] at h
        obtain ⟨-, h1, h2⟩ := h
        subst h1
        rfl
      | ioErr e => simp [hk] at h
      | timeoutErr e => simp [hk] at h
  · intro m fs tag removeOutcome r hk
    unfold DefaultFileCacheManager.flush
    simp only [hk]
    split
    · cases removeOutcome <;> rfl
    · rfl
  · intro m fs serializationOk w h
    unfold DefaultFileCacheManager.persist
    simp [h]
  · intro m m' fs fs' serializationOk w h hd
    unfold DefaultFileCacheManager.persist at h
    simp only [hd] at h
    cases serializationOk
    · simp at h
    · cases w with
      | ok =>
        simp [Prod.mk.injEq] at h
        obtain ⟨h1, h2⟩ := h
        subst h1
        rfl
      | ioErr e => simp at h
      | timeoutErr e => simp at h
  · intro m fs serializationOk w e h
    unfold DefaultFileCacheManager.persist at h ⊢
    cases hd : m.dirty
    · simp [hd] at h
    · cases serializationOk
      · simp [hd]
      · cases w with
        | ok => simp [hd] at h
        | ioErr e2 => simp [hd]
        | timeoutErr e2 => simp [hd]

/-- Witness for C4: the five dirty-bit transitions at concrete inputs. -/
theorem spec_c4_witness :
    ((DefaultFileCacheManager.cache
        { name := "c", path := "p", extension := none, autoSaveInterval := 1,
          dirty := false, map := [] }
        { files := [], dirs := [] } [] "t" "s" [Token.nat 7] "f"
        TimedOutcome.ok).2.1).dirty = true
  ∧ ((DefaultFileCacheManager.flush
        { name := "c", path := "p", extension := none, autoSaveInterval := 1,
          dirty := true,
          map := [("t", { tag := "t", filename := "f", size := 1, sentence := "s" })] }
        { files := [], dirs := [] } "t" none).2.1).dirty = true
  ∧ DefaultFileCacheManager.persist
      { name := "c", path := "p", extension := none, autoSaveInterval := 1,
        dirty := false, map := [] }
      { files := [], dirs := [] } true TimedOutcome.ok
      = (Except.ok (),
          { name := "c", path := "p", extension := none, autoSaveInterval := 1,
            dirty := false, map := [] },
          { files := [], dirs := [] })
  ∧ ((DefaultFileCacheManager.persist
        { name := "c", path := "p", extension := none, autoSaveInterval := 1,
          dirty := true,
          map := [("t", { tag := "t", filename := "f", size := 1, sentence := "s" })] }
        { files := [], dirs := [] } true TimedOutcome.ok).2.1).dirty = false
  ∧ (DefaultFileCacheManager.persist
      { name := "c", path := "p", extension := none, autoSaveInterval := 1,
        dirty := true,
        map := [("t", { tag := "t", filename := "f", size := 1, sentence := "s" })] }
      { files := [], dirs := [] } false TimedOutcome.ok).2.1
      = { name := "c", path := "p", extension := none, autoSaveInterval := 1,
          dirty := true,
          map := [("t", { tag := "t", filename := "f", size := 1, sentence := "s" })] } :=
  ⟨spec_c4_dirty_bit.1
      { name := "c", path := "p", extension := none, autoSaveInterval := 1,
        dirty := false, map := [] }
      ((DefaultFileCacheManager.cache
        { name := "c", path := "p", extension := none, autoSaveInterval := 1,
          dirty := false, map := [] }
        { files := [], dirs := [] } [] "t" "s" [Token.nat 7] "f" TimedOutcome.ok).2.1)
      { files := [], dirs := [] }
      ((DefaultFileCacheManager.cache
        { name := "c", path := "p", extension := none, autoSaveInterval := 1,
          dirty := false, map := [] }
        { files := [], dirs := [] } [] "t" "s" [Token.nat 7] "f" TimedOutcome.ok).2.2)
      [] "t" "s" [Token.nat 7] "f" TimedOutcome.ok (by rfl),
   spec_c4_dirty_bit.2.1
      { name := "c", path := "p", extension := none, autoSaveInterval := 1,
        dirty := true,
        map := [("t", { tag := "t", filename := "f", size := 1, sentence := "s" })] }
      { files := [], dirs := [] } "t" none
      { tag := "t", filename := "f", size := 1, sentence := "s" } (by rfl),
   spec_c4_dirty_bit.2.2.1
      { name := "c", path := "p", extension := none, autoSaveInterval := 1,
        dirty := false, map := [] }
      { files := [], dirs := [] } true TimedOutcome.ok (by rfl),
   spec_c4_dirty_bit.2.2.2.1
      { name := "c", path := "p", extension := none, autoSaveInterval := 1,
        dirty := true,
        map := [("t", { tag := "t", filename := "f", size := 1, sentence := "s" })] }
      ((DefaultFileCacheManager.persist
        { name := "c", path := "p", extension := none, autoSaveInterval := 1,
          dirty := true,
          map := [("t", { tag := "t", filename := "f", size := 1, sentence := "s" })] }
        { files := [], dirs := [] } true TimedOutcome.ok).2.1)
      { files := [], dirs := [] }
      ((DefaultFileCacheManager.persist
        { name := "c", path := "p", extension := none, autoSaveInterval := 1,
          dirty := true,
          map := [("t", { tag := "t", filename := "f", size := 1, sentence := "s" })] }
        { files := [], dirs := [] } true TimedOutcome.ok).2.2)
      true TimedOutcome.ok (by rfl) (by rfl),
   spec_c4_dirty_bit.2.2.2.2
      { name := "c", path := "p", extension := none, autoSaveInterval := 1,
        dirty := true,
        map := [("t", { tag := "t", filename := "f", size := 1, sentence := "s" })] }
      { files := [], dirs := [] } false TimedOutcome.ok
      (CacheError.Serialization "serialize") (by rfl)⟩

/-- Claim C5: `should_update(t,s)` errors `TagNotExist` when `t` is
unknown; otherwise (no contending lock holder, deterministic filesystem)
it returns `true` when the blob file is missing or the stored sentence
differs from `s`, and `false` when the blob exists and the stored
sentence equals `s`. -/
theorem spec_c5_should_update :
    (∀ (m : DefaultFileCacheManager) (fs : FS) (locked : List String)
        (tag sentence : String),
      alookup m.map tag = none →
      m.should_update fs locked tag sentence = Except.error (CacheError.TagNotExist tag))
  ∧ (∀ (m : DefaultFileCacheManager) (fs : FS) (locked : List String)
        (tag sentence : String) (r : CacheRecord),
      alookup m.map tag = some r → tag ∉ locked →
      fsRead fs (m.build_path r.filename) = none →
      m.should_update fs locked tag sentence = Except.ok true)
  ∧ (∀ (m : DefaultFileCacheManager) (fs : FS) (locked : List String)
        (tag sentence : String) (r : CacheRecord) (b : Bytes),
      alookup m.map tag = some r → tag ∉ locked →
      fsRead fs (m.build_path r.filename) = some b → r.sentence ≠ sentence →
      m.should_update fs locked tag sentence = Except.ok true)
  ∧ (∀ (m : DefaultFileCacheManager) (fs : FS) (locked : List String)
        (tag sentence : String) (r : CacheRecord) (b : Bytes),
      alookup m.map tag = some r → tag ∉ locked →
      fsRead fs (m.build_path r.filename) = some b → r.sentence = sentence →
      m.should_update fs locked tag sentence = Except.ok false) := by
  refine ⟨?_, ?_, ?_, ?_⟩
  · intro m fs locked tag sentence hk
    unfold DefaultFileCacheManager.should_update
    simp [hk]
  · intro m fs locked tag sentence r hk hl hfs
    unfold DefaultFileCacheManager.should_update
    simp [hk, hl, hfs]
  · intro m fs locked tag sentence r b hk hl hfs hs
    unfold DefaultFileCacheManager.should_update
    simp [hk, hl, hfs, bne_iff_ne, hs]
  · intro m fs locked tag sentence r b hk hl hfs hs
    unfold DefaultFileCacheManager.should_update
    simp [hk, hl, hfs, hs]

/-- Witness for C5: the four `should_update` outcomes at concrete inputs. -/
theorem spec_c5_witness :
    DefaultFileCacheManager.should_update
      { name := "c", path := "p", extension := none, autoSaveInterval := 1,
        dirty := false, map := [] }
      { files := [], dirs := [] } [] "t" "s"
      = Except.error (CacheError.TagNotExist "t")
  ∧ DefaultFileCacheManager.should_update
      { name := "c", path := "p", extension := none, autoSaveInterval := 1,
        dirty := false,
        map := [("t", { tag := "t", filename := "f", size := 1, sentence := "s" })] }
      { files := [], dirs := [] } [] "t" "s"
      = Except.ok true
  ∧ DefaultFileCacheManager.should_update
      { name := "c", path := "p", extension := none, autoSaveInterval := 1,
        dirty := false,
        map := [("t", { tag := "t", filename := "f", size := 1, sentence := "s" })] }
      { files := [("p/f", [Token.nat 7])], dirs := ["p"] } [] "t" "s2"
      = Except.ok true
  ∧ DefaultFileCacheManager.should_update
      { name := "c", path := "p", extension := none, autoSaveInterval := 1,
        dirty := false,
        map := [("t", { tag := "t", filename := "f", size := 1, sentence := "s" })] }
      { files := [("p/f", [Token.nat 7])], dirs := ["p"] } [] "t" "s"
      = Except.ok false :=
  ⟨spec_c5_should_update.1
      { name := "c", path := "p", extension := none, autoSaveInterval := 1,
        dirty := false, map := [] }
      { files := [], dirs := [] } [] "t" "s" (by rfl),
   spec_c5_should_update.2.1
      { name := "c", path := "p", extension := none, autoSaveInterval := 1,
        dirty := false,
        map := [("t", { tag := "t", filename := "f", size := 1, sentence := "s" })] }
      { files := [], dirs := [] } [] "t" "s"
      { tag := "t", filename := "f", size := 1, sentence := "s" }
      (by rfl) (by simp) (by rfl),
   spec_c5_should_update.2.2.1
      { name := "c", path := "p", extension := none, autoSaveInterval := 1,
        dirty := false,
        map := [("t", { tag := "t", filename := "f", size := 1, sentence := "s" })] }
      { files := [("p/f", [Token.nat 7])], dirs := ["p"] } [] "t" "s2"
      { tag := "t", filename := "f", size := 1, sentence := "s" } [Token.nat 7]
      (by rfl) (by simp) (by rfl) (by decide),
   spec_c5_should_update.2.2.2
      { name := "c", path := "p", extension := none, autoSaveInterval := 1,
        dirty := false,
        map := [("t", { tag := "t", filename := "f", size := 1, sentence := "s" })] }
      { files := [("p/f", [Token.nat 7])], dirs := ["p"] } [] "t" "s"
      { tag := "t", filename := "f", size := 1, sentence := "s" } [Token.nat 7]
      (by rfl) (by simp) (by rfl) (by rfl)⟩

/-- Claim C6: `flush(t)` errors `TagNotExist` and changes nothing when
`t` is unknown; otherwise it removes `t` from the index before deleting
the blob — even when the deletion fails with an io error the tag is
already gone, so a subsequent `fetch(t)` errors `TagNotExist` — and
after a fully successful `flush(t)` the blob file no longer exists. -/
theorem spec_c6_flush :
    (∀ (m : DefaultFileCacheManager) (fs : FS) (tag : String)
        (removeOutcome : Option String),
      alookup m.map tag = none →
      m.flush fs tag removeOutcome = (Except.error (CacheError.TagNotExist tag), m, fs))
  ∧ (∀ (m : DefaultFileCacheManager) (fs : FS) (tag : String)
        (removeOutcome : Option String) (r : CacheRecord),
      alookup m.map tag = some r →
      ((m.flush fs tag removeOutcome).2.1).map = aremove m.map tag
      ∧ alookup ((m.flush fs tag removeOutcome).2.1).map tag = none
      ∧ ∀ (fs2 : FS) (locked : List String) (ro : TimedOutcome),
          ((m.flush fs tag removeOutcome).2.1).fetch fs2 locked tag ro
            = Except.error (CacheError.TagNotExist tag))
  ∧ (∀ (m m' : DefaultFileCacheManager) (fs fs' : FS) (tag : String)
        (removeOutcome : Option String) (r : CacheRecord),
      alookup m.map tag = some r →
      m.flush fs tag removeOutcome = (Except.ok (), m', fs') →
      fsRead fs' (m.build_path r.filename) = none) := by
  refine ⟨?_, ?_, ?_⟩
  · intro m fs tag removeOutcome hk
    unfold DefaultFileCacheManager.flush
    simp [hk]
  · intro m fs tag removeOutcome r hk
    have hmap : ((m.flush fs tag removeOutcome).2.1).map = aremove m.map tag := by
      unfold DefaultFileCacheManager.flush
      simp only [hk]
      split
      · cases removeOutcome <;> rfl
      · rfl
    refine ⟨hmap, ?_, ?_⟩
    · rw [hmap]
      exact alookup_aremove_self m.map tag
    · intro fs2 locked ro
      unfold DefaultFileCacheManager.fetch
      simp only [hmap, alookup_aremove_self]
  · intro m m' fs fs' tag removeOutcome r hk h
    unfold DefaultFileCacheManager.flush at h
    simp only [hk] at h
    cases hfsr : fsRead fs (m.build_path r.filename) with
    | none =>
      simp only [hfsr] at h
      simp only [Option.isSome_none, Bool.false_eq_true, if_false, Prod.mk.injEq] at h
      obtain ⟨-, -, h3⟩ := h
      subst h3
      exact hfsr
    | some b =>
      simp only [hfsr] at h
      cases removeOutcome with
      | none =>
        simp only [Option.isSome_some, if_true, Prod.mk.injEq] at h
        obtain ⟨-, -, h3⟩ := h
        subst h3
        simp [fsRemoveFile, fsRead, alookup_aremove_self]
      | some e =>
        simp at h

/-- Witness for C6: unknown-tag `flush`, `fetch` after a `flush` whose
deletion failed, and blob absence after a successful `flush`, at
concrete inputs. -/
theorem spec_c6_witness :
    DefaultFileCacheManager.flush
      { name := "c", path := "p", extension := none, autoSaveInterval := 1,
        dirty := false, map := [] }
      { files := [], dirs := [] } "t" none
      = (Except.error (CacheError.TagNotExist "t"),
          { name := "c", path := "p", extension := none, autoSaveInterval := 1,
            dirty := false, map := [] },
          { files := [], dirs := [] })
  ∧ ((DefaultFileCacheManager.flush
        { name := "c", path := "p", extension := none, autoSaveInterval := 1,
          dirty := false,
          map := [("t", { tag := "t", filename := "f", size := 1, sentence := "s" })] }
        { files := [("p/f", [Token.nat 7])], dirs := ["p"] } "t"
        (some "boom")).2.1).fetch
      { files := [("p/f", [Token.nat 7])], dirs := ["p"] } [] "t" TimedOutcome.ok
      = Except.error (CacheError.TagNotExist "t")
  ∧ fsRead
      ((DefaultFileCacheManager.flush
        { name := "c", path := "p", extension := none, autoSaveInterval := 1,
          dirty := false,
          map := [("t", { tag := "t", filename := "f", size := 1, sentence := "s" })] }
        { files := [("p/f", [Token.nat 7])], dirs := ["p"] } "t" none).2.2)
      (DefaultFileCacheManager.build_path
        { name := "c", path := "p", extension := none, autoSaveInterval := 1,
          dirty := false,
          map := [("t", { tag := "t", filename := "f", size := 1, sentence := "s" })] }
        "f")
      = none :=
  ⟨spec_c6_flush.1
      { name := "c", path := "p", extension := none, autoSaveInterval := 1,
        dirty := false, map := [] }
      { files := [], dirs := [] } "t" none (by rfl),
   (spec_c6_flush.2.1
      { name := "c", path := "p", extension := none, autoSaveInterval := 1,
        dirty := false,
        map := [("t", { tag := "t", filename := "f", size := 1, sentence := "s" })] }
      { files := [("p/f", [Token.nat 7])], dirs := ["p"] } "t" (some "boom")
      { tag := "t", filename := "f", size := 1, sentence := "s" } (by rfl)).2.2
      { files := [("p/f", [Token.nat 7])], dirs := ["p"] } [] TimedOutcome.ok,
   spec_c6_flush.2.2
      { name := "c", path := "p", extension := none, autoSaveInterval := 1,
        dirty := false,
        map := [("t", { tag := "t", filename := "f", size := 1, sentence := "s" })] }
      ((DefaultFileCacheManager.flush
        { name := "c", path := "p", extension := none, autoSaveInterval := 1,
          dirty := false,
          map := [("t", { tag := "t", filename := "f", size := 1, sentence := "s" })] }
        { files := [("p/f", [Token.nat 7])], dirs := ["p"] } "t" none).2.1)
      { files := [("p/f", [Token.nat 7])], dirs := ["p"] }
      ((DefaultFileCacheManager.flush
        { name := "c", path := "p", extension := none, autoSaveInterval := 1,
          dirty := false,
          map := [("t", { tag := "t", filename := "f", size := 1, sentence := "s" })] }
        { files := [("p/f", [Token.nat 7])], dirs := ["p"] } "t" none).2.2)
      "t" none
      { tag := "t", filename := "f", size := 1, sentence := "s" }
      (by rfl) (by rfl)⟩

/-- Claim C10: every per-tag operation touching an existing record —
`cache` on a known tag, `should_update`, `fetch`, `record`, `path` —
acquires the record lock with non-blocking `try_write`; when the lock is
held by any other holder the operation returns a `Lock` error
immediately, leaving the index, the record and the dirty flag unchanged
(for `cache`, the returned state is exactly the pre-call state). -/
theorem spec_c10_lock_contention
    (m : DefaultFileCacheManager) (fs : FS) (locked : List String)
    (tag : String) (r : CacheRecord)
    (hk : alookup m.map tag = some r) (hl : tag ∈ locked) :
    (∀ (sentence : String) (bytes : Bytes) (freshFilename : String) (w : TimedOutcome),
      m.cache fs locked tag sentence bytes freshFilename w
        = (Except.error (CacheError.Lock lockContendedMessage), m, fs))
    ∧ (∀ sentence : String, m.should_update fs locked tag sentence
        = Except.error (CacheError.Lock lockContendedMessage))
    ∧ (∀ ro : TimedOutcome, m.fetch fs locked tag ro
        = Except.error (CacheError.Lock lockContendedMessage))
    ∧ m.record locked tag = Except.error (CacheError.Lock lockContendedMessage)
    ∧ m.path_op fs locked tag = Except.error (CacheError.Lock lockContendedMessage) := by
  refine ⟨?_, ?_, ?_, ?_, ?_⟩
  · intro sentence bytes freshFilename w
    unfold DefaultFileCacheManager.cache
    simp [hk, hl]
  · intro sentence
    unfold DefaultFileCacheManager.should_update
    simp [hk, hl]
  · intro ro
    unfold DefaultFileCacheManager.fetch
    simp [hk, hl]
  · unfold DefaultFileCacheManager.record
    simp [hk, hl]
  · unfold DefaultFileCacheManager.path_op
    simp [hk, hl]

/-- Witness for C10: contention on the record lock of a known tag at
concrete inputs. -/
theorem spec_c10_witness :
    DefaultFileCacheManager.cache
      { name := "c", path := "p", extension := none, autoSaveInterval := 1,
        dirty := false,
        map := [("t", { tag := "t", filename := "f", size := 1, sentence := "s" })] }
      { files := [], dirs := [] } ["t"] "t" "s2" [Token.nat 9] "g" TimedOutcome.ok
      = (Except.error (CacheError.Lock lockContendedMessage),
          { name := "c", path := "p", extension := none, autoSaveInterval := 1,
            dirty := false,
            map := [("t", { tag := "t", filename := "f", size := 1, sentence := "s" })] },
          { files := [], dirs := [] })
  ∧ DefaultFileCacheManager.fetch
      { name := "c", path := "p", extension := none, autoSaveInterval := 1,
        dirty := false,
        map := [("t", { tag := "t", filename := "f", size := 1, sentence := "s" })] }
      { files := [], dirs := [] } ["t"] "t" TimedOutcome.ok
      = Except.error (CacheError.Lock lockContendedMessage) :=
  ⟨(spec_c10_lock_contention
      { name := "c", path := "p", extension := none, autoSaveInterval := 1,
        dirty := false,
        map := [("t", { tag := "t", filename := "f", size := 1, sentence := "s" })] }
      { files := [], dirs := [] } ["t"] "t"
      { tag := "t", filename := "f", size := 1, sentence := "s" }
      (by rfl) (by simp)).1 "s2" [Token.nat 9] "g" TimedOutcome.ok,
   (spec_c10_lock_contention
      { name := "c", path := "p", extension := none, autoSaveInterval := 1,
        dirty := false,
        map := [("t", { tag := "t", filename := "f", size := 1, sentence := "s" })] }
      { files := [], dirs := [] } ["t"] "t"
      { tag := "t", filename := "f", size := 1, sentence := "s" }
      (by rfl) (by simp)).2.2.1 TimedOutcome.ok⟩

/-- Counterexample to C7 as stated: with one other holder referencing
the slot (`extraRefs = 1`), `free` does return `none` — but the slot
does NOT remain registered in the lock map: `locks.remove(id)` runs
before the `Arc::into_inner` check, so the registry entry is gone. -/
theorem spec_c7_counterexample :
    (KeyedRwLock.free
      { cumulative_cleanup := 0,
        locks := [("k", { value := (5 : Nat), extraRefs := 1 })] } "k").1 = none
    ∧ alookup ((KeyedRwLock.free
      { cumulative_cleanup := 0,
        locks := [("k", { value := (5 : Nat), extraRefs := 1 })] } "k").2).locks "k"
      = none := by
  exact ⟨rfl, rfl⟩

/-- C7 as amended: `free(key)` on an absent key is a no-op returning
`none`; on a present key it always removes the slot from the lock map,
returning the value exactly when no other holder references the slot and
`none` otherwise (the holders' own references stay alive, but the
registry forgets the slot). -/
theorem spec_c7_free_amended {T : Type} (l : KeyedRwLock T) (id : String) :
    (alookup l.locks id = none → l.free id = (none, l))
    ∧ ∀ slot : KeyedSlot T, alookup l.locks id = some slot →
        (l.free id).2.locks = aremove l.locks id
        ∧ (slot.extraRefs = 0 → (l.free id).1 = some (id, slot.value))
        ∧ (slot.extraRefs ≠ 0 → (l.free id).1 = none) := by
  constructor
  · intro h
    unfold KeyedRwLock.free
    simp [h]
  · intro slot h
    refine ⟨?_, ?_, ?_⟩
    · unfold KeyedRwLock.free
      simp only [h]
      by_cases hz : slot.extraRefs = 0 <;> simp [hz]
    · intro hz
      unfold KeyedRwLock.free
      simp [h, hz]
    · intro hz
      unfold KeyedRwLock.free
      simp [h, hz]

/-- Witness for the amended C7: both `free` outcomes at concrete inputs —
an uncontended slot is removed and its value returned; a slot with
another holder is removed and `none` returned. -/
theorem spec_c7_witness :
    (KeyedRwLock.free
      { cumulative_cleanup := 0,
        locks := [("k", { value := (5 : Nat), extraRefs := 0 })] } "k").1
      = some ("k", 5)
  ∧ (KeyedRwLock.free
      { cumulative_cleanup := 0,
        locks := [("j", { value := (6 : Nat), extraRefs := 2 })] } "j").1 = none
  ∧ (KeyedRwLock.free
      { cumulative_cleanup := 0,
        locks := [("j", { value := (6 : Nat), extraRefs := 2 })] } "j").2.locks
      = aremove
          [("j", ({ value := (6 : Nat), extraRefs := 2 } : KeyedSlot Nat))] "j" :=
  ⟨((spec_c7_free_amended
      { cumulative_cleanup := 0,
        locks := [("k", { value := (5 : Nat), extraRefs := 0 })] } "k").2
      { value := (5 : Nat), extraRefs := 0 } (by rfl)).2.1 (by rfl),
   ((spec_c7_free_amended
      { cumulative_cleanup := 0,
        locks := [("j", { value := (6 : Nat), extraRefs := 2 })] } "j").2
      { value := (6 : Nat), extraRefs := 2 } (by rfl)).2.2 (by decide),
   ((spec_c7_free_amended
      { cumulative_cleanup := 0,
        locks := [("j", { value := (6 : Nat), extraRefs := 2 })] } "j").2
      { value := (6 : Nat), extraRefs := 2 } (by rfl)).1⟩

/-- Claim C9: every runtime accessor first checks its subsystem field —
returning `NotConfigured` naming the subsystem when the field is `none`,
never panicking — and otherwise dispatches the operation to the
subsystem and returns its result wrapped in `Ok` (for the file-cache
accessors, dispatch resolves the channel through the factory's
`get_with_name`). -/
theorem spec_c9_runtime_accessors :
    (∀ (rt : ServiceRuntime) (endpoint : HttpEndpoint),
      rt.http_client = none →
      rt.execute_http endpoint = Except.error (ServiceError.NotConfigured "Http Client"))
  ∧ (∀ (rt : ServiceRuntime) (client : HttpClient) (endpoint : HttpEndpoint),
      rt.http_client = some client →
      rt.execute_http endpoint = Except.ok (client.execute endpoint))
  ∧ (∀ (rt : ServiceRuntime) (rf : ReadFile),
      rt.storage_manager = none →
      rt.read_file rf = Except.error (ServiceError.NotConfigured "Storage Manager"))
  ∧ (∀ (rt : ServiceRuntime) (sm : StorageManager) (rf : ReadFile),
      rt.storage_manager = some sm →
      rt.read_file rf = Except.ok (sm.read rf))
  ∧ (∀ (rt : ServiceRuntime) (wf : WriteFile),
      rt.storage_manager = none →
      rt.write_file wf = Except.error (ServiceError.NotConfigured "Storage Manager"))
  ∧ (∀ (rt : ServiceRuntime) (sm : StorageManager) (wf : WriteFile),
      rt.storage_manager = some sm →
      rt.write_file wf = Except.ok (sm.write wf))
  ∧ (∀ (rt : ServiceRuntime) (fs : FS) (locked : List String)
        (channel tag sentence : String) (bytes : Bytes) (freshFilename : String)
        (w : TimedOutcome),
      rt.file_cache_manager_factory = none →
      rt.file_cache_cache fs locked channel tag sentence bytes freshFilename w
        = Except.error (ServiceError.NotConfigured "File Cache"))
  ∧ (∀ (rt : ServiceRuntime) (factory : SingletonFileCacheManagerFactory)
        (manager : DefaultFileCacheManager) (fs : FS) (locked : List String)
        (channel tag sentence : String) (bytes : Bytes) (freshFilename : String)
        (w : TimedOutcome),
      rt.file_cache_manager_factory = some factory →
      factory.get_with_name channel = Except.ok manager →
      rt.file_cache_cache fs locked channel tag sentence bytes freshFilename w
        = Except.ok
            ((manager.cache fs locked tag sentence bytes freshFilename w).1,
              { factory with
                map := ainsert factory.map channel
                  (manager.cache fs locked tag sentence bytes freshFilename w).2.1 },
              (manager.cache fs locked tag sentence bytes freshFilename w).2.2))
  ∧ (∀ (rt : ServiceRuntime) (fs : FS) (locked : List String)
        (channel tag sentence : String),
      rt.file_cache_manager_factory = none →
      rt.file_cache_should_update fs locked channel tag sentence
        = Except.error (ServiceError.NotConfigured "File Cache"))
  ∧ (∀ (rt : ServiceRuntime) (factory : SingletonFileCacheManagerFactory)
        (manager : DefaultFileCacheManager) (fs : FS) (locked : List String)
        (channel tag sentence : String),
      rt.file_cache_manager_factory = some factory →
      factory.get_with_name channel = Except.ok manager →
      rt.file_cache_should_update fs locked channel tag sentence
        = Except.ok (manager.should_update fs locked tag sentence))
  ∧ (∀ (rt : ServiceRuntime) (fs : FS) (locked : List String)
        (channel tag : String) (ro : TimedOutcome),
      rt.file_cache_manager_factory = none →
      rt.file_cache_fetch fs locked channel tag ro
        = Except.error (ServiceError.NotConfigured "File Cache"))
  ∧ (∀ (rt : ServiceRuntime) (factory : SingletonFileCacheManagerFactory)
        (manager : DefaultFileCacheManager) (fs : FS) (locked : List String)
        (channel tag : String) (ro : TimedOutcome),
      rt.file_cache_manager_factory = some factory →
      factory.get_with_name channel = Except.ok manager →
      rt.file_cache_fetch fs locked channel tag ro
        = Except.ok (manager.fetch fs locked tag ro))
  ∧ (∀ (rt : ServiceRuntime) (fs : FS) (channel tag : String)
        (removeOutcome : Option String),
      rt.file_cache_manager_factory = none →
      rt.file_cache_flush fs channel tag removeOutcome
        = Except.error (ServiceError.NotConfigured "File Cache"))
  ∧ (∀ (rt : ServiceRuntime) (factory : SingletonFileCacheManagerFactory)
        (manager : DefaultFileCacheManager) (fs : FS) (channel tag : String)
        (removeOutcome : Option String),
      rt.file_cache_manager_factory = some factory →
      factory.get_with_name channel = Except.ok manager →
      rt.file_cache_flush fs channel tag removeOutcome
        = Except.ok
            ((manager.flush fs tag removeOutcome).1,
              { factory with
                map := ainsert factory.map channel
                  (manager.flush fs tag removeOutcome).2.1 },
              (manager.flush fs tag removeOutcome).2.2))
  ∧ (∀ (rt : ServiceRuntime) (fs : FS) (channel : String)
        (serializationOk : Bool) (w : TimedOutcome),
      rt.file_cache_manager_factory = none →
      rt.file_cache_persist fs channel serializationOk w
        = Except.error (ServiceError.NotConfigured "File Cache"))
  ∧ (∀ (rt : ServiceRuntime) (factory : SingletonFileCacheManagerFactory)
        (manager : DefaultFileCacheManager) (fs : FS) (channel : String)
        (serializationOk : Bool) (w : TimedOutcome),
      rt.file_cache_manager_factory = some factory →
      factory.get_with_name channel = Except.ok manager →
      rt.file_cache_persist fs channel serializationOk w
        = Except.ok
            ((manager.persist fs serializationOk w).1,
              { factory with
                map := ainsert factory.map channel
                  (manager.persist fs serializationOk w).2.1 },
              (manager.persist fs serializationOk w).2.2)) := by
  refine ⟨?_, ?_, ?_, ?_, ?_, ?_, ?_, ?_, ?_, ?_, ?_, ?_, ?_, ?_, ?_, ?_⟩
  · intro rt endpoint h
    unfold ServiceRuntime.execute_http
    simp [h]
  · intro rt client endpoint h
    unfold ServiceRuntime.execute_http
    simp [h]
  · intro rt rf h
    unfold ServiceRuntime.read_file
    simp [h]
  · intro rt sm rf h
    unfold ServiceRuntime.read_file
    simp [h]
  · intro rt wf h
    unfold ServiceRuntime.write_file
    simp [h]
  · intro rt sm wf h
    unfold ServiceRuntime.write_file
    simp [h]
  · intro rt fs locked channel tag sentence bytes freshFilename w h
    unfold ServiceRuntime.file_cache_cache
    simp [h]
  · intro rt factory manager fs locked channel tag sentence bytes freshFilename w h hm
    unfold ServiceRuntime.file_cache_cache
    simp [h, hm]
  · intro rt fs locked channel tag sentence h
    unfold ServiceRuntime.file_cache_should_update
    simp [h]
  · intro rt factory manager fs locked channel tag sentence h hm
    unfold ServiceRuntime.file_cache_should_update
    simp [h, hm]
  · intro rt fs locked channel tag ro h
    unfold ServiceRuntime.file_cache_fetch
    simp [h]
  · intro rt factory manager fs locked channel tag ro h hm
    unfold ServiceRuntime.file_cache_fetch
    simp [h, hm]
  · intro rt fs channel tag removeOutcome h
    unfold ServiceRuntime.file_cache_flush
    simp [h]
  · intro rt factory manager fs channel tag removeOutcome h hm
    unfold ServiceRuntime.file_cache_flush
    simp [h, hm]
  · intro rt fs channel serializationOk w h
    unfold ServiceRuntime.file_cache_persist
    simp [h]
  · intro rt factory manager fs channel serializationOk w h hm
    unfold ServiceRuntime.file_cache_persist
    simp [h, hm]

/-- Witness for C9: not-configured and configured accessor behaviour at
concrete inputs — an empty runtime errors `NotConfigured`, a configured
runtime dispatches `execute_http`, `file_cache_fetch` and
`file_cache_persist` to its subsystems. -/
theorem spec_c9_witness :
    ServiceRuntime.execute_http
      { http_client := none, storage_manager := none,
        file_cache_manager_factory := none }
      { path := "/x", domain := "d", body := none, timeout := 1, headers := none,
        path_params := none, query_params := none, method := HttpMethod.Get,
        requires_encryption := false, requires_decryption := false,
        user_agent := none, content_type := none }
      = Except.error (ServiceError.NotConfigured "Http Client")
  ∧ ServiceRuntime.execute_http
      { http_client := some { execute := fun _ => Except.error (HttpClientError.Network "off") },
        storage_manager := none, file_cache_manager_factory := none }
      { path := "/x", domain := "d", body := none, timeout := 1, headers := none,
        path_params := none, query_params := none, method := HttpMethod.Get,
        requires_encryption := false, requires_decryption := false,
        user_agent := none, content_type := none }
      = Except.ok (Except.error (HttpClientError.Network "off"))
  ∧ ServiceRuntime.file_cache_fetch
      { http_client := none, storage_manager := none,
        file_cache_manager_factory := none }
      { files := [], dirs := [] } [] "c" "t" TimedOutcome.ok
      = Except.error (ServiceError.NotConfigured "File Cache")
  ∧ ServiceRuntime.file_cache_fetch
      { http_client := none, storage_manager := none,
        file_cache_manager_factory := some
          { config := { base_path := "b", auto_save_interval := 1 },
            map := [("c",
              { name := "c", path := "b/c", extension := none, autoSaveInterval := 1,
                dirty := false,
                map := [("t", { tag := "t", filename := "f", size := 1, sentence := "s" })] })] } }
      { files := [("b/c/f", [Token.nat 7])], dirs := ["b/c"] } [] "c" "t" TimedOutcome.ok
      = Except.ok
          (DefaultFileCacheManager.fetch
            { name := "c", path := "b/c", extension := none, autoSaveInterval := 1,
              dirty := false,
              map := [("t", { tag := "t", filename := "f", size := 1, sentence := "s" })] }
            { files := [("b/c/f", [Token.nat 7])], dirs := ["b/c"] } [] "t"
            TimedOutcome.ok)
  ∧ ServiceRuntime.file_cache_persist
      { http_client := none, storage_manager := none,
        file_cache_manager_factory := some
          { config := { base_path := "b", auto_save_interval := 1 },
            map := [("c",
              { name := "c", path := "b/c", extension := none, autoSaveInterval := 1,
                dirty := false,
                map := [("t", { tag := "t", filename := "f", size := 1, sentence := "s" })] })] } }
      { files := [], dirs := [] } "c" true TimedOutcome.ok
      = Except.ok
          ((DefaultFileCacheManager.persist
              { name := "c", path := "b/c", extension := none, autoSaveInterval := 1,
                dirty := false,
                map := [("t", { tag := "t", filename := "f", size := 1, sentence := "s" })] }
              { files := [], dirs := [] } true TimedOutcome.ok).1,
            { config := { base_path := "b", auto_save_interval := 1 },
              map := ainsert
                [("c",
                  { name := "c", path := "b/c", extension := none, autoSaveInterval := 1,
                    dirty := false,
                    map := [("t", { tag := "t", filename := "f", size := 1, sentence := "s" })] })]
                "c"
                (DefaultFileCacheManager.persist
                  { name := "c", path := "b/c", extension := none, autoSaveInterval := 1,
                    dirty := false,
                    map := [("t", { tag := "t", filename := "f", size := 1, sentence := "s" })] }
                  { files := [], dirs := [] } true TimedOutcome.ok).2.1 },
            (DefaultFileCacheManager.persist
              { name := "c", path := "b/c", extension := none, autoSaveInterval := 1,
                dirty := false,
                map := [("t", { tag := "t", filename := "f", size := 1, sentence := "s" })] }
              { files := [], dirs := [] } true TimedOutcome.ok).2.2) :=
  ⟨spec_c9_runtime_accessors.1
      { http_client := none, storage_manager := none,
        file_cache_manager_factory := none }
      { path := "/x", domain := "d", body := none, timeout := 1, headers := none,
        path_params := none, query_params := none, method := HttpMethod.Get,
        requires_encryption := false, requires_decryption := false,
        user_agent := none, content_type := none } (by rfl),
   spec_c9_runtime_accessors.2.1
      { http_client := some { execute := fun _ => Except.error (HttpClientError.Network "off") },
        storage_manager := none, file_cache_manager_factory := none }
      { execute := fun _ => Except.error (HttpClientError.Network "off") }
      { path := "/x", domain := "d", body := none, timeout := 1, headers := none,
        path_params := none, query_params := none, method := HttpMethod.Get,
        requires_encryption := false, requires_decryption := false,
        user_agent := none, content_type := none } (by rfl),
   spec_c9_runtime_accessors.2.2.2.2.2.2.2.2.2.2.1
      { http_client := none, storage_manager := none,
        file_cache_manager_factory := none }
      { files := [], dirs := [] } [] "c" "t" TimedOutcome.ok (by rfl),
   spec_c9_runtime_accessors.2.2.2.2.2.2.2.2.2.2.2.1
      { http_client := none, storage_manager := none,
        file_cache_manager_factory := some
          { config := { base_path := "b", auto_save_interval := 1 },
            map := [("c",
              { name := "c", path := "b/c", extension := none, autoSaveInterval := 1,
                dirty := false,
                map := [("t", { tag := "t", filename := "f", size := 1, sentence := "s" })] })] } }
      { config := { base_path := "b", auto_save_interval := 1 },
        map := [("c",
          { name := "c", path := "b/c", extension := none, autoSaveInterval := 1,
            dirty := false,
            map := [("t", { tag := "t", filename := "f", size := 1, sentence := "s" })] })] }
      { name := "c", path := "b/c", extension := none, autoSaveInterval := 1,
        dirty := false,
        map := [("t", { tag := "t", filename := "f", size := 1, sentence := "s" })] }
      { files := [("b/c/f", [Token.nat 7])], dirs := ["b/c"] } [] "c" "t"
      TimedOutcome.ok (by rfl) (by rfl),
   spec_c9_runtime_accessors.2.2.2.2.2.2.2.2.2.2.2.2.2.2.2
      { http_client := none, storage_manager := none,
        file_cache_manager_factory := some
          { config := { base_path := "b", auto_save_interval := 1 },
            map := [("c",
              { name := "c", path := "b/c", extension := none, autoSaveInterval := 1,
                dirty := false,
                map := [("t", { tag := "t", filename := "f", size := 1, sentence := "s" })] })] } }
      { config := { base_path := "b", auto_save_interval := 1 },
        map := [("c",
          { name := "c", path := "b/c", extension := none, autoSaveInterval := 1,
            dirty := false,
            map := [("t", { tag := "t", filename := "f", size := 1, sentence := "s" })] })] }
      { name := "c", path := "b/c", extension := none, autoSaveInterval := 1,
        dirty := false,
        map := [("t", { tag := "t", filename := "f", size := 1, sentence := "s" })] }
      { files := [], dirs := [] } "c" true TimedOutcome.ok (by rfl) (by rfl)⟩

/-- Claim C2: after a dirty manager's successful `persist()`,
reconstructing a manager from the descriptor it wrote — factory
`create_channel` on the same channel name followed by
`DefaultFileCacheManager::new` on the same path — recovers every record
(tag, filename, size, sentence) present at persist time, and `fetch`
on the reconstructed manager agrees byte-for-byte with `fetch` on the
persisted manager over the unchanged filesystem. -/
theorem spec_c2_persist_roundtrip
    (m m' : DefaultFileCacheManager) (fs fs' : FS)
    (f : SingletonFileCacheManagerFactory) (serializationOk : Bool)
    (w : TimedOutcome) (ext : Option String) (interval : Nat)
    (hwf : mapWF m.map)
    (hpath : m.path = f.config.base_path ++ "/" ++ m.name)
    (hdirty : m.dirty = true)
    (hp : m.persist fs serializationOk w = (Except.ok (), m', fs')) :
    f.create_channel fs' m.name ext
      = Except.ok
          { name := m.name, extension := m.extension, records := m.map.map Prod.snd }
    ∧ (DefaultFileCacheManager.new m.path interval
        { name := m.name, extension := m.extension, records := m.map.map Prod.snd }).map
      = m.map
    ∧ ∀ (tag : String) (ro : TimedOutcome),
        (DefaultFileCacheManager.new m.path interval
          { name := m.name, extension := m.extension, records := m.map.map Prod.snd }).fetch
          fs' [] tag ro
        = m'.fetch fs' [] tag ro := by
  unfold DefaultFileCacheManager.persist at hp
  cases serializationOk with
  | false => simp [hdirty] at hp
  | true =>
    cases w with
    | ioErr e => simp [hdirty] at hp
    | timeoutErr e => simp [hdirty] at hp
    | ok =>
      simp only [hdirty, Bool.true_eq_false, if_false, Bool.false_eq_true,
        Prod.mk.injEq, true_and] at hp
      obtain ⟨h1, h2⟩ := hp
      subst h1
      subst h2
      refine ⟨?_, ?_, ?_⟩
      · unfold SingletonFileCacheManagerFactory.create_channel
          SingletonFileCacheManagerFactory.get_channel_path
        rw [← hpath]
        unfold DefaultFileCacheManager.get_channel_path
        rw [fsRead_fsWrite_self]
        simp [decodeChannel_encodeChannel]
      · unfold DefaultFileCacheManager.new
        exact mapOfRecords_snapshot m.map hwf
      · intro tag ro
        unfold DefaultFileCacheManager.fetch DefaultFileCacheManager.new
          DefaultFileCacheManager.build_path
        simp only [mapOfRecords_snapshot m.map hwf]

/-- Witness for C2: a concrete persist of a one-record dirty channel,
decoded back through the factory and rebuilt, with `fetch` agreeing. -/
theorem spec_c2_witness :
    SingletonFileCacheManagerFactory.create_channel
      { config := { base_path := "b", auto_save_interval := 1 }, map := [] }
      ((DefaultFileCacheManager.persist
        { name := "c", path := "b/c", extension := none, autoSaveInterval := 1,
          dirty := true,
          map := [("t", { tag := "t", filename := "f", size := 1, sentence := "s" })] }
        { files := [("b/c/f", [Token.nat 7])], dirs := ["b/c"] } true
        TimedOutcome.ok).2.2)
      "c" none
      = Except.ok
          { name := "c", extension := none,
            records := [{ tag := "t", filename := "f", size := 1, sentence := "s" }] }
  ∧ (DefaultFileCacheManager.new "b/c" 1
      { name := "c", extension := none,
        records := [{ tag := "t", filename := "f", size := 1, sentence := "s" }] }).map
      = [("t", { tag := "t", filename := "f", size := 1, sentence := "s" })]
  ∧ (DefaultFileCacheManager.new "b/c" 1
      { name := "c", extension := none,
        records := [{ tag := "t", filename := "f", size := 1, sentence := "s" }] }).fetch
      ((DefaultFileCacheManager.persist
        { name := "c", path := "b/c", extension := none, autoSaveInterval := 1,
          dirty := true,
          map := [("t", { tag := "t", filename := "f", size := 1, sentence := "s" })] }
        { files := [("b/c/f", [Token.nat 7])], dirs := ["b/c"] } true
        TimedOutcome.ok).2.2)
      [] "t" TimedOutcome.ok
      = ((DefaultFileCacheManager.persist
          { name := "c", path := "b/c", extension := none, autoSaveInterval := 1,
            dirty := true,
            map := [("t", { tag := "t", filename := "f", size := 1, sentence := "s" })] }
          { files := [("b/c/f", [Token.nat 7])], dirs := ["b/c"] } true
          TimedOutcome.ok).2.1).fetch
        ((DefaultFileCacheManager.persist
          { name := "c", path := "b/c", extension := none, autoSaveInterval := 1,
            dirty := true,
            map := [("t", { tag := "t", filename := "f", size := 1, sentence := "s" })] }
          { files := [("b/c/f", [Token.nat 7])], dirs := ["b/c"] } true
          TimedOutcome.ok).2.2)
        [] "t" TimedOutcome.ok :=
  ⟨(spec_c2_persist_roundtrip
      { name := "c", path := "b/c", extension := none, autoSaveInterval := 1,
        dirty := true,
        map := [("t", { tag := "t", filename := "f", size := 1, sentence := "s" })] }
      ((DefaultFileCacheManager.persist
        { name := "c", path := "b/c", extension := none, autoSaveInterval := 1,
          dirty := true,
          map := [("t", { tag := "t", filename := "f", size := 1, sentence := "s" })] }
        { files := [("b/c/f", [Token.nat 7])], dirs := ["b/c"] } true
        TimedOutcome.ok).2.1)
      { files := [("b/c/f", [Token.nat 7])], dirs := ["b/c"] }
      ((DefaultFileCacheManager.persist
        { name := "c", path := "b/c", extension := none, autoSaveInterval := 1,
          dirty := true,
          map := [("t", { tag := "t", filename := "f", size := 1, sentence := "s" })] }
        { files := [("b/c/f", [Token.nat 7])], dirs := ["b/c"] } true
        TimedOutcome.ok).2.2)
      { config := { base_path := "b", auto_save_interval := 1 }, map := [] }
      true TimedOutcome.ok none 1
      (by decide) (by rfl) (by rfl) (by rfl)).1,
   (spec_c2_persist_roundtrip
      { name := "c", path := "b/c", extension := none, autoSaveInterval := 1,
        dirty := true,
        map := [("t", { tag := "t", filename := "f", size := 1, sentence := "s" })] }
      ((DefaultFileCacheManager.persist
        { name := "c", path := "b/c", extension := none, autoSaveInterval := 1,
          dirty := true,
          map := [("t", { tag := "t", filename := "f", size := 1, sentence := "s" })] }
        { files := [("b/c/f", [Token.nat 7])], dirs := ["b/c"] } true
        TimedOutcome.ok).2.1)
      { files := [("b/c/f", [Token.nat 7])], dirs := ["b/c"] }
      ((DefaultFileCacheManager.persist
        { name := "c", path := "b/c", extension := none, autoSaveInterval := 1,
          dirty := true,
          map := [("t", { tag := "t", filename := "f", size := 1, sentence := "s" })] }
        { files := [("b/c/f", [Token.nat 7])], dirs := ["b/c"] } true
        TimedOutcome.ok).2.2)
      { config := { base_path := "b", auto_save_interval := 1 }, map := [] }
      true TimedOutcome.ok none 1
      (by decide) (by rfl) (by rfl) (by rfl)).2.1,
   (spec_c2_persist_roundtrip
      { name := "c", path := "b/c", extension := none, autoSaveInterval := 1,
        dirty := true,
        map := [("t", { tag := "t", filename := "f", size := 1, sentence := "s" })] }
      ((DefaultFileCacheManager.persist
        { name := "c", path := "b/c", extension := none, autoSaveInterval := 1,
          dirty := true,
          map := [("t", { tag := "t", filename := "f", size := 1, sentence := "s" })] }
        { files := [("b/c/f", [Token.nat 7])], dirs := ["b/c"] } true
        TimedOutcome.ok).2.1)
      { files := [("b/c/f", [Token.nat 7])], dirs := ["b/c"] }
      ((DefaultFileCacheManager.persist
        { name := "c", path := "b/c", extension := none, autoSaveInterval := 1,
          dirty := true,
          map := [("t", { tag := "t", filename := "f", size := 1, sentence := "s" })] }
        { files := [("b/c/f", [Token.nat 7])], dirs := ["b/c"] } true
        TimedOutcome.ok).2.2)
      { config := { base_path := "b", auto_save_interval := 1 }, map := [] }
      true TimedOutcome.ok none 1
      (by decide) (by rfl) (by rfl) (by rfl)).2.2 "t" TimedOutcome.ok⟩
